import Mathlib

/-!
Verification development for the `SaveDataModelModal` component of the
repository (Apache Superset fork, SQL Lab "Save as dbt Model" dialog).

The repository holds two near-duplicate variants of the component:

* Variant A: `src/superset-frontend/src/SqlLab/components/SaveDataModelModal/index.tsx`
  (the validated variant: a regex gate disables the submit button, three
  materialization radio options).
* Variant B: `src/unnamed/part_000` (no submit gate, a fourth
  "Ephemereal" radio option, `console.log` debug prints, and the
  `updateDataset` network helper).

The component is event-driven UI glue: local state cells mutated by
keystroke / radio / click events, each event also emitting calls to
caller-supplied handlers.  We embed it as a step function
`State → Event → State × List Effect`, where `Effect` records every
outbound call (handler invocations, dialog close, debug prints) in the
order the source makes them.  Localization (`t`) is an abstract
`String → String` parameter wherever its output matters.
-/

/-- Outbound calls the component makes to its collaborators, in source
order.  `consoleLogStr` / `consoleLogNum` record the `console.log` debug
prints present only in variant B. -/
inductive Effect where
  | handleModelName (value : String)
  | handleDescription (value : String)
  | handleMaterializationNum (k : Nat)
  | runQueryModel (b : Bool)
  | onHide
  | consoleLogStr (s : String)
  | consoleLogNum (n : Nat)
deriving DecidableEq, Repr

/-- User-input events the dialog reacts to: a keystroke in the Name field
(carrying the new full field value), a keystroke in the Description
field, a radio selection (carrying `Number(e.target.value)`), and a click
on the footer submit button. -/
inductive Event where
  | labelChange (value : String)
  | descriptionChange (value : String)
  | radioSelect (k : Nat)
  | submitClick
deriving DecidableEq, Repr

/-- Character class `[a-zA-Z0-9_]` of the source regex. -/
def isLabelChar (c : Char) : Bool :=
  (('a' ≤ c) && (c ≤ 'z')) || (('A' ≤ c) && (c ≤ 'Z')) ||
    (('0' ≤ c) && (c ≤ '9')) || (c == '_')

/-- Source: `const regexCheck = /^[a-zA-Z0-9_]{1,63}$/` together with
`regexCheck.test s`: the whole string is 1 to 63 characters, each in
`[a-zA-Z0-9_]`.  (The regex matches per UTF-16 code unit; on strings
where it can pass — all characters ASCII — code units and characters
coincide, and any string with a non-ASCII character fails both.) -/
def regexCheck (s : String) : Bool :=
  (1 ≤ s.length) && (s.length ≤ 63) && s.data.all isLabelChar

/-- JavaScript `a || b` on a possibly-absent string: `none` and the empty
string are falsy. -/
def jsOrStr (a : Option String) (b : String) : String :=
  match a with
  | none => b
  | some s => if s = "" then b else s

/-- Source: `const defaultLabel = query.name || query.description || t('Undefined')`
(identical in both variants). -/
def defaultLabel (tr : String → String) (name description : Option String) : String :=
  jsOrStr name (jsOrStr description (tr "Undefined"))

/-- Local state of variant A: the three form cells plus the submit-disable
flag `isDisabled` (`useState(true)`). -/
structure StateA where
  label : String
  description : String
  materializationNumRadio : Nat
  isDisabled : Bool
deriving DecidableEq, Repr

/-- Local state of variant B: the three form cells; variant B has no
`isDisabled` cell. -/
structure StateB where
  label : String
  description : String
  materializationNumRadio : Nat
deriving DecidableEq, Repr

/-- Mount-time state of variant A: `useState` initializers
`defaultLabel`, `query.description || ''`, `1`, `true`. -/
def initStateA (tr : String → String) (name description : Option String) : StateA :=
  { label := defaultLabel tr name description
    description := jsOrStr description ""
    materializationNumRadio := 1
    isDisabled := true }

/-- Mount-time state of variant B: same initializers, no disable flag. -/
def initStateB (tr : String → String) (name description : Option String) : StateB :=
  { label := defaultLabel tr name description
    description := jsOrStr description ""
    materializationNumRadio := 1 }

/-- Variant A `onLabelChange`: `setLabel(v); handleModelName(v);
setIsDisabled(!regexCheck.test(v))`. -/
def onLabelChangeA (st : StateA) (value : String) : StateA × List Effect :=
  ({ st with label := value, isDisabled := !(regexCheck value) },
   [Effect.handleModelName value])

/-- Variant A `onDescriptionChange`: `setDescription(v); handleDescription(v)`. -/
def onDescriptionChangeA (st : StateA) (value : String) : StateA × List Effect :=
  ({ st with description := value }, [Effect.handleDescription value])

/-- Variant A `handleMaterializationNumRadio`:
`handleMaterializationNum(k); setMaterializationNumRadio(k)`. -/
def handleMaterializationNumRadioA (st : StateA) (k : Nat) : StateA × List Effect :=
  ({ st with materializationNumRadio := k }, [Effect.handleMaterializationNum k])

/-- Variant A `onClickModel`: `if (allowAsync) return runQueryModel(true);
return runQueryModel(false)`. -/
def onClickModelA (allowAsync : Bool) : List Effect :=
  if allowAsync then [Effect.runQueryModel true] else [Effect.runQueryModel false]

/-- Variant A footer button: `onClick` runs
`onClickModel(allowAsync, runQueryModel); onHide();`, but the button
carries `disabled={isDisabled}`, so a disabled button emits nothing. -/
def submitClickA (allowAsync : Bool) (st : StateA) : StateA × List Effect :=
  if st.isDisabled then (st, [])
  else (st, onClickModelA allowAsync ++ [Effect.onHide])

/-- One input event of variant A. -/
def stepA (allowAsync : Bool) (st : StateA) (e : Event) : StateA × List Effect :=
  match e with
  | Event.labelChange v => onLabelChangeA st v
  | Event.descriptionChange v => onDescriptionChangeA st v
  | Event.radioSelect k => handleMaterializationNumRadioA st k
  | Event.submitClick => submitClickA allowAsync st

/-- A whole interaction with variant A: final state and the concatenated
effect trace. -/
def runA (allowAsync : Bool) (st : StateA) : List Event → StateA × List Effect
  | [] => (st, [])
  | e :: es =>
    let p := stepA allowAsync st e
    let q := runA allowAsync p.1 es
    (q.1, p.2 ++ q.2)

/-- Variant B `onLabelChange`: `setLabel(v); handleModelName(v)` — no
disable-flag update. -/
def onLabelChangeB (st : StateB) (value : String) : StateB × List Effect :=
  ({ st with label := value }, [Effect.handleModelName value])

/-- Variant B `onDescriptionChange`: `setDescription(v); handleDescription(v)`. -/
def onDescriptionChangeB (st : StateB) (value : String) : StateB × List Effect :=
  ({ st with description := value }, [Effect.handleDescription value])

/-- Variant B `handleMaterializationNumRadio`: `handleMaterializationNum(k);
setMaterializationNumRadio(k); console.log("materialize num radio");
console.log(k)`. -/
def handleMaterializationNumRadioB (st : StateB) (k : Nat) : StateB × List Effect :=
  ({ st with materializationNumRadio := k },
   [Effect.handleMaterializationNum k,
    Effect.consoleLogStr "materialize num radio",
    Effect.consoleLogNum k])

/-- Variant B `onClickModel`: `console.log("run query model click");` then
the same conditional call as variant A. -/
def onClickModelB (allowAsync : Bool) : List Effect :=
  Effect.consoleLogStr "run query model click" ::
    (if allowAsync then [Effect.runQueryModel true] else [Effect.runQueryModel false])

/-- Variant B footer button: no `disabled` attribute, clicking always runs
`onClickModel(allowAsync, runQueryModel); onHide();`. -/
def submitClickB (allowAsync : Bool) (st : StateB) : StateB × List Effect :=
  (st, onClickModelB allowAsync ++ [Effect.onHide])

/-- One input event of variant B. -/
def stepB (allowAsync : Bool) (st : StateB) (e : Event) : StateB × List Effect :=
  match e with
  | Event.labelChange v => onLabelChangeB st v
  | Event.descriptionChange v => onDescriptionChangeB st v
  | Event.radioSelect k => handleMaterializationNumRadioB st k
  | Event.submitClick => submitClickB allowAsync st

/-- A whole interaction with variant B. -/
def runB (allowAsync : Bool) (st : StateB) : List Event → StateB × List Effect
  | [] => (st, [])
  | e :: es =>
    let p := stepB allowAsync st e
    let q := runB allowAsync p.1 es
    (q.1, p.2 ++ q.2)

/-- Radio options rendered by variant A: value and untranslated label key
of each `<Radio value={k}>{t(...)}</Radio>`. -/
def radioOptionsA : List (Nat × String) :=
  [(1, "Table"), (2, "View"), (3, "Incremental")]

/-- Radio options rendered by variant B: one more option, value `4`,
labelled `Ephemereal` in the source (sic). -/
def radioOptionsB : List (Nat × String) :=
  [(1, "Table"), (2, "View"), (3, "Incremental"), (4, "Ephemereal")]

/-- Debug-print test on effects, used to compare the variants modulo
`console.log`. -/
def Effect.isLog : Effect → Bool
  | Effect.consoleLogStr _ => true
  | Effect.consoleLogNum _ => true
  | _ => false

/-- Effects with the debug prints removed. -/
def scrubLogs (fx : List Effect) : List Effect :=
  fx.filter (fun f => ! f.isLog)

/-- Forgetting variant A's extra `isDisabled` cell yields a variant B
state. -/
def projA (st : StateA) : StateB :=
  { label := st.label
    description := st.description
    materializationNumRadio := st.materializationNumRadio }

/-- JSON values, used for the request body and response payloads of the
`updateDataset` helper. -/
inductive JsonValue where
  | null
  | bool (b : Bool)
  | num (n : Int)
  | str (s : String)
  | arr (xs : List JsonValue)
  | obj (fields : List (String × JsonValue))

/-- An HTTP request as assembled by `updateDataset` before handing it to
`SupersetClient.put`. -/
structure HttpRequest where
  method : String
  endpoint : String
  headers : List (String × String)
  body : JsonValue

/-- The part of `SupersetClient`'s `JsonResponse` the helper reads:
`data.json.result`. -/
structure JsonEnvelope where
  result : JsonValue

/-- An HTTP failure raised by the client; `updateDataset` installs no
handler for it. -/
structure HttpError where
  status : Nat
  message : String

/-- JavaScript template interpolation of a boolean. -/
def boolStr (b : Bool) : String :=
  if b then "true" else "false"

/-- The single request `updateDataset` builds (variant B, lines 120-141):
endpoint `api/v1/dataset/<datasetId>?override_columns=<overrideColumns>`,
a JSON content-type header, and body
`{sql, columns, owners, database_id: dbId}`. -/
def updateDatasetRequest (dbId datasetId : Nat) (sql : String)
    (columns : List JsonValue) (owners : List Int)
    (overrideColumns : Bool) : HttpRequest :=
  { method := "PUT"
    endpoint :=
      "api/v1/dataset/" ++ toString datasetId ++ "?override_columns="
        ++ boolStr overrideColumns
    headers := [("Content-Type", "application/json")]
    body := JsonValue.obj
      [("sql", JsonValue.str sql),
       ("columns", JsonValue.arr columns),
       ("owners", JsonValue.arr (owners.map JsonValue.num)),
       ("database_id", JsonValue.num dbId)] }

/-- Source `updateDataset`: awaits one `SupersetClient.put` of the request
above and returns `data.json.result`.  The client is an oracle
`put : HttpRequest → Except HttpError JsonEnvelope`; the first component
of the result is the trace of requests issued (the helper issues exactly
one, with no retry), and a client error propagates untouched because the
`await` has no surrounding try/catch. -/
def updateDataset (put : HttpRequest → Except HttpError JsonEnvelope)
    (dbId datasetId : Nat) (sql : String) (columns : List JsonValue)
    (owners : List Int) (overrideColumns : Bool) :
    List HttpRequest × Except HttpError JsonValue :=
  let req := updateDatasetRequest dbId datasetId sql columns owners overrideColumns
  ([req], (put req).map JsonEnvelope.result)

/-- C1: in the validated variant, the submit-enabled flag equals the result
of testing the label against `^[a-zA-Z0-9_]{1,63}$`, recomputed on every
label-change event: after a label change to `s`, the button is enabled
(`isDisabled = false`) exactly when `s` has length 1 to 63 and every
character is an ASCII letter, digit, or underscore; otherwise (empty,
longer than 63, or any other character) it is disabled.  The resulting
flag is `!regexCheck s`, independent of the prior state. -/
theorem label_pattern_gates_submit (st : StateA) (s : String) :
    (onLabelChangeA st s).1.isDisabled = !(regexCheck s) ∧
    ((onLabelChangeA st s).1.isDisabled = false ↔
      1 ≤ s.length ∧ s.length ≤ 63 ∧
        ∀ c ∈ s.data,
          ('a' ≤ c ∧ c ≤ 'z') ∨ ('A' ≤ c ∧ c ≤ 'Z') ∨
            ('0' ≤ c ∧ c ≤ '9') ∨ c = '_') := by
  refine ⟨rfl, ?_⟩
  show (!(regexCheck s)) = false ↔ _
  simp only [Bool.not_eq_false', regexCheck, isLabelChar, Bool.and_eq_true,
    decide_eq_true_eq, List.all_eq_true, Bool.or_eq_true, beq_iff_eq,
    and_assoc, or_assoc]

/-- C1 witness: a pattern-matching label change enables the button and a
label with a space disables it. -/
theorem label_pattern_gates_submit_witness :
    (onLabelChangeA (initStateA id none none) "model_1").1.isDisabled = false ∧
    (onLabelChangeA (initStateA id none none) "a b").1.isDisabled = true := by
  constructor
  · exact (label_pattern_gates_submit (initStateA id none none) "model_1").2.mpr
      (by decide)
  · have h := (label_pattern_gates_submit (initStateA id none none) "a b").1
    rw [h]; decide

/-- C2: for every value of the allow-async flag, clicking the (enabled)
submit button emits exactly one run-query call, whose argument equals the
flag, followed by exactly one dialog-close call: the effect list is
precisely `[runQueryModel allowAsync, onHide]`. -/
theorem submit_click_runs_query_then_hides (allowAsync : Bool) (st : StateA)
    (h : st.isDisabled = false) :
    (submitClickA allowAsync st).2 =
      [Effect.runQueryModel allowAsync, Effect.onHide] ∧
    (submitClickA allowAsync st).2.count (Effect.runQueryModel allowAsync) = 1 ∧
    (submitClickA allowAsync st).2.count (Effect.runQueryModel (!allowAsync)) = 0 ∧
    (submitClickA allowAsync st).2.count Effect.onHide = 1 := by
  cases allowAsync <;>
    simp [submitClickA, onClickModelA, h, List.count_cons]

/-- C2 witness: the contract evaluated at a concrete enabled state, for
both flag values. -/
theorem submit_click_runs_query_then_hides_witness :
    (submitClickA true (StateA.mk "a" "" 1 false)).2 =
      [Effect.runQueryModel true, Effect.onHide] ∧
    (submitClickA false (StateA.mk "a" "" 1 false)).2 =
      [Effect.runQueryModel false, Effect.onHide] :=
  ⟨(submit_click_runs_query_then_hides true (StateA.mk "a" "" 1 false) rfl).1,
   (submit_click_runs_query_then_hides false (StateA.mk "a" "" 1 false) rfl).1⟩

/-- C3: selecting materialization option `k` from the rendered option set
updates the displayed selection (`materializationNumRadio`) to `k` and
forwards `k` to the external handler exactly once, in the same step (no
confirm step): in variant A (options 1..3) the emitted effects are
exactly `[handleMaterializationNum k]`; in variant B (options 1..4) the
handler call occurs once and the non-log effects are exactly
`[handleMaterializationNum k]`. -/
theorem radio_selection_updates_and_forwards (k : Nat) (stA : StateA) (stB : StateB) :
    (k ∈ radioOptionsA.map Prod.fst →
      (handleMaterializationNumRadioA stA k).1.materializationNumRadio = k ∧
      (handleMaterializationNumRadioA stA k).2 =
        [Effect.handleMaterializationNum k]) ∧
    (k ∈ radioOptionsB.map Prod.fst →
      (handleMaterializationNumRadioB stB k).1.materializationNumRadio = k ∧
      (handleMaterializationNumRadioB stB k).2.count
        (Effect.handleMaterializationNum k) = 1 ∧
      scrubLogs (handleMaterializationNumRadioB stB k).2 =
        [Effect.handleMaterializationNum k]) := by
  refine ⟨fun _ => ⟨rfl, rfl⟩, fun _ => ⟨rfl, ?_, rfl⟩⟩
  simp [handleMaterializationNumRadioB, List.count_cons]

/-- C3 witness: option 2 in variant A and option 4 in variant B, at
concrete states. -/
theorem radio_selection_updates_and_forwards_witness :
    (handleMaterializationNumRadioA (StateA.mk "a" "" 1 true) 2).1.materializationNumRadio = 2 ∧
    (handleMaterializationNumRadioB (StateB.mk "a" "" 1) 4).1.materializationNumRadio = 4 :=
  ⟨((radio_selection_updates_and_forwards 2 (StateA.mk "a" "" 1 true)
      (StateB.mk "a" "" 1)).1 (by decide)).1,
   ((radio_selection_updates_and_forwards 4 (StateA.mk "a" "" 1 true)
      (StateB.mk "a" "" 1)).2 (by decide)).1⟩

/-- C6: a description-change event updates only the description state cell
and forwards the new value to the description handler; label,
materialization choice, and the submit-disable flag are unchanged, and no
other effect is emitted. -/
theorem description_change_frame (st : StateA) (v : String) :
    (onDescriptionChangeA st v).1.description = v ∧
    (onDescriptionChangeA st v).2 = [Effect.handleDescription v] ∧
    (onDescriptionChangeA st v).1.label = st.label ∧
    (onDescriptionChangeA st v).1.materializationNumRadio =
      st.materializationNumRadio ∧
    (onDescriptionChangeA st v).1.isDisabled = st.isDisabled :=
  ⟨rfl, rfl, rfl, rfl, rfl⟩

/-- C7: in both variants, every label keystroke forwards the new value to
the model-name setter and every description keystroke forwards the new
value to the description setter, for every value `v`, matching the
validation pattern or not. -/
theorem keystrokes_always_forwarded (v : String) (stA : StateA) (stB : StateB) :
    (onLabelChangeA stA v).2 = [Effect.handleModelName v] ∧
    (onLabelChangeB stB v).2 = [Effect.handleModelName v] ∧
    (onDescriptionChangeA stA v).2 = [Effect.handleDescription v] ∧
    (onDescriptionChangeB stB v).2 = [Effect.handleDescription v] :=
  ⟨rfl, rfl, rfl, rfl⟩

/-- C4: at dialog initialization the label defaults to the query name when
that is truthy, else to the query description when that is truthy, else
to the localized placeholder `tr "Undefined"`; and the description cell
initializes to the existing query description, or the empty string when
that is absent or empty. -/
theorem initial_label_and_description_defaults (tr : String → String)
    (name desc : Option String) :
    (∀ s, name = some s → s ≠ "" → (initStateA tr name desc).label = s) ∧
    ((name = none ∨ name = some "") →
      ∀ s, desc = some s → s ≠ "" → (initStateA tr name desc).label = s) ∧
    ((name = none ∨ name = some "") → (desc = none ∨ desc = some "") →
      (initStateA tr name desc).label = tr "Undefined") ∧
    (∀ s, desc = some s → s ≠ "" → (initStateA tr name desc).description = s) ∧
    ((desc = none ∨ desc = some "") →
      (initStateA tr name desc).description = "") := by
  refine ⟨?_, ?_, ?_, ?_, ?_⟩
  · rintro s rfl hs
    simp [initStateA, defaultLabel, jsOrStr, hs]
  · rintro (rfl | rfl) s rfl hs <;>
      simp [initStateA, defaultLabel, jsOrStr, hs]
  · rintro (rfl | rfl) (rfl | rfl) <;>
      simp [initStateA, defaultLabel, jsOrStr]
  · rintro s rfl hs
    simp [initStateA, jsOrStr, hs]
  · rintro (rfl | rfl) <;> simp [initStateA, jsOrStr]

/-- C4 witness: the three default cases and both description cases at
concrete queries. -/
theorem initial_label_and_description_defaults_witness :
    (initStateA id (some "qname") (some "qdesc")).label = "qname" ∧
    (initStateA id none (some "qdesc")).label = "qdesc" ∧
    (initStateA id (some "") none).label = "Undefined" ∧
    (initStateA id none (some "qdesc")).description = "qdesc" ∧
    (initStateA id (some "qname") none).description = "" :=
  ⟨(initial_label_and_description_defaults id (some "qname") (some "qdesc")).1
      "qname" rfl (by decide),
   (initial_label_and_description_defaults id none (some "qdesc")).2.1
      (Or.inl rfl) "qdesc" rfl (by decide),
   (initial_label_and_description_defaults id (some "") none).2.2.1
      (Or.inr rfl) (Or.inl rfl),
   (initial_label_and_description_defaults id none (some "qdesc")).2.2.2.1
      "qdesc" rfl (by decide),
   (initial_label_and_description_defaults id (some "qname") none).2.2.2.2
      (Or.inl rfl)⟩

/-- Helper for the reachability invariant: along any event trace of
variant A, once the final state is enabled, either the trace contains a
label change to a pattern-matching value or the starting state was
already enabled. -/
theorem runA_enabled_cause (aa : Bool) (es : List Event) (st : StateA)
    (h : (runA aa st es).1.isDisabled = false) :
    (∃ s, Event.labelChange s ∈ es ∧ regexCheck s = true) ∨
      st.isDisabled = false := by
  induction es generalizing st with
  | nil => exact Or.inr h
  | cons e es ih =>
    rcases ih (stepA aa st e).1 h with hmem | hst
    · rcases hmem with ⟨s, hs, hr⟩
      exact Or.inl ⟨s, List.mem_cons_of_mem _ hs, hr⟩
    · cases e with
      | labelChange v =>
        refine Or.inl ⟨v, List.mem_cons_self _ _, ?_⟩
        simpa [stepA, onLabelChangeA] using hst
      | descriptionChange v => exact Or.inr hst
      | radioSelect k => exact Or.inr hst
      | submitClick =>
        have hstep : (stepA aa st Event.submitClick).1 = st := by
          by_cases hd : st.isDisabled <;> simp [stepA, submitClickA, hd]
        rw [hstep] at hst
        exact Or.inr hst

/-- C5: in the validated variant the dialog mounts with the submit button
disabled — including for a default label that already matches the
pattern, as witnessed by a concrete matching default — and in every
reachable state, submit being enabled implies the trace contains a label
change to a pattern-matching value. -/
theorem submit_disabled_until_valid_label_change :
    (∀ (tr : String → String) (name desc : Option String),
      (initStateA tr name desc).isDisabled = true) ∧
    regexCheck (defaultLabel id (some "already_valid") none) = true ∧
    (∀ (aa : Bool) (tr : String → String) (name desc : Option String)
      (es : List Event),
      (runA aa (initStateA tr name desc) es).1.isDisabled = false →
      ∃ s, Event.labelChange s ∈ es ∧ regexCheck s = true) := by
  refine ⟨fun _ _ _ => rfl, by decide, ?_⟩
  intro aa tr name desc es h
  rcases runA_enabled_cause aa es (initStateA tr name desc) h with hmem | hst
  · exact hmem
  · exact absurd hst (by simp [initStateA])

/-- C5 witness: a trace consisting of one matching label change, run from
the mount state, yields an enabled state, and the theorem recovers the
matching change from it. -/
theorem submit_disabled_until_valid_label_change_witness :
    ∃ s, Event.labelChange s ∈ [Event.labelChange "ok_name"] ∧
      regexCheck s = true :=
  submit_disabled_until_valid_label_change.2.2 true id none none
    [Event.labelChange "ok_name"] (by decide)

/-- C8: the two variants are behaviorally identical up to exactly the
three recorded differences.  (1) Mount states agree after forgetting
variant A's extra disable flag.  (2) For every event — with submit clicks
taken in enabled states, since the gate is one of the differences — the
variants produce the same next state (modulo the flag) and the same
effects once variant B's debug prints are scrubbed.  (3) Variant B's
radio options are exactly variant A's plus the fourth `Ephemereal`
option.  (4) The gate difference is real: in a disabled state variant A's
submit emits nothing while variant B's still runs the query and closes.
(5) The debug-print difference is real: variant B's submit emits a
`console.log`. -/
theorem variants_agree_modulo_recorded_differences :
    (∀ (tr : String → String) (name desc : Option String),
      projA (initStateA tr name desc) = initStateB tr name desc) ∧
    (∀ (aa : Bool) (st : StateA) (e : Event),
      (e = Event.submitClick → st.isDisabled = false) →
      projA (stepA aa st e).1 = (stepB aa (projA st) e).1 ∧
      (stepA aa st e).2 = scrubLogs (stepB aa (projA st) e).2) ∧
    radioOptionsB = radioOptionsA ++ [(4, "Ephemereal")] ∧
    (∀ (aa : Bool) (st : StateA), st.isDisabled = true →
      (stepA aa st Event.submitClick).2 = [] ∧
      scrubLogs (stepB aa (projA st) Event.submitClick).2 =
        [Effect.runQueryModel aa, Effect.onHide]) ∧
    (∀ (aa : Bool) (st : StateB),
      Effect.consoleLogStr "run query model click" ∈
        (stepB aa st Event.submitClick).2) := by
  refine ⟨fun _ _ _ => rfl, ?_, rfl, ?_, ?_⟩
  · intro aa st e hsub
    cases e with
    | labelChange v => exact ⟨rfl, rfl⟩
    | descriptionChange v => exact ⟨rfl, rfl⟩
    | radioSelect k => exact ⟨rfl, rfl⟩
    | submitClick =>
      have hd := hsub rfl
      cases aa <;>
        simp [stepA, stepB, submitClickA, submitClickB, onClickModelA,
          onClickModelB, scrubLogs, Effect.isLog, hd, projA]
  · intro aa st hd
    refine ⟨by simp [stepA, submitClickA, hd], ?_⟩
    cases aa <;> rfl
  · intro aa st
    cases aa <;>
      simp [stepB, submitClickB, onClickModelB]

/-- C8 witness: the equivalence and the gate divergence evaluated at
concrete states. -/
theorem variants_agree_modulo_recorded_differences_witness :
    projA (stepA true (StateA.mk "a" "" 1 false) Event.submitClick).1 =
      (stepB true (projA (StateA.mk "a" "" 1 false)) Event.submitClick).1 ∧
    (stepA true (StateA.mk "a" "" 1 true) Event.submitClick).2 = [] :=
  ⟨(variants_agree_modulo_recorded_differences.2.1 true
      (StateA.mk "a" "" 1 false) Event.submitClick (fun _ => rfl)).1,
   (variants_agree_modulo_recorded_differences.2.2.2.1 true
      (StateA.mk "a" "" 1 true) rfl).1⟩

/-- Helper: along any event trace of variant A, every materialization
forward in the effect trace is caused by a radio selection of the same
code in the event trace. -/
theorem runA_materialization_cause (aa : Bool) (es : List Event)
    (st : StateA) (k : Nat)
    (h : Effect.handleMaterializationNum k ∈ (runA aa st es).2) :
    Event.radioSelect k ∈ es := by
  induction es generalizing st with
  | nil => simp [runA] at h
  | cons e es ih =>
    rw [runA, List.mem_append] at h
    rcases h with h | h
    · cases e with
      | labelChange v => simp [stepA, onLabelChangeA] at h
      | descriptionChange v => simp [stepA, onDescriptionChangeA] at h
      | radioSelect j =>
        simp [stepA, handleMaterializationNumRadioA] at h
        simp [h]
      | submitClick =>
        by_cases hd : st.isDisabled <;> cases aa <;>
          simp [stepA, submitClickA, onClickModelA, hd] at h
    · exact List.mem_cons_of_mem _ (ih _ h)

/-- Helper: the same causality along any event trace of variant B. -/
theorem runB_materialization_cause (aa : Bool) (es : List Event)
    (st : StateB) (k : Nat)
    (h : Effect.handleMaterializationNum k ∈ (runB aa st es).2) :
    Event.radioSelect k ∈ es := by
  induction es generalizing st with
  | nil => simp [runB] at h
  | cons e es ih =>
    rw [runB, List.mem_append] at h
    rcases h with h | h
    · cases e with
      | labelChange v => simp [stepB, onLabelChangeB] at h
      | descriptionChange v => simp [stepB, onDescriptionChangeB] at h
      | radioSelect j =>
        simp [stepB, handleMaterializationNumRadioB] at h
        simp [h]
      | submitClick =>
        cases aa <;>
          simp [stepB, submitClickB, onClickModelB] at h
    · exact List.mem_cons_of_mem _ (ih _ h)

/-- C10: both variants mount with materialization choice 1 (Table), and
the external materialization handler is never invoked except as the
consequence of an explicit radio-selection event carrying the same code:
any `handleMaterializationNum k` in the effect trace of a run from any
state implies a `radioSelect k` event in the input trace, so before the
first selection — in particular at mount, where the trace is empty — the
collaborator has received no materialization code. -/
theorem materialization_forwarded_only_on_selection :
    (∀ (tr : String → String) (name desc : Option String),
      (initStateA tr name desc).materializationNumRadio = 1 ∧
      (initStateB tr name desc).materializationNumRadio = 1) ∧
    (∀ (aa : Bool) (st : StateA) (es : List Event) (k : Nat),
      Effect.handleMaterializationNum k ∈ (runA aa st es).2 →
      Event.radioSelect k ∈ es) ∧
    (∀ (aa : Bool) (st : StateB) (es : List Event) (k : Nat),
      Effect.handleMaterializationNum k ∈ (runB aa st es).2 →
      Event.radioSelect k ∈ es) :=
  ⟨fun _ _ _ => ⟨rfl, rfl⟩,
   fun aa st es k h => runA_materialization_cause aa es st k h,
   fun aa st es k h => runB_materialization_cause aa es st k h⟩

/-- C10 witness: from a trace holding one radio selection, the theorem
recovers that selection. -/
theorem materialization_forwarded_only_on_selection_witness :
    Event.radioSelect 3 ∈ [Event.radioSelect 3] :=
  materialization_forwarded_only_on_selection.2.1 true
    (StateA.mk "a" "" 1 true) [Event.radioSelect 3] 3 (by decide)

/-- Field list of a JSON object, empty for non-objects. -/
def JsonValue.objFields : JsonValue → List (String × JsonValue)
  | JsonValue.obj fields => fields
  | _ => []

/-- C9: `updateDataset` issues a single PUT — the request trace is exactly
one request — to `api/v1/dataset/<datasetId>?override_columns=<flag>`
with a JSON body holding exactly the fields `sql`, `columns`, `owners`,
and `database_id` (the latter set to the given database id); on a
successful response it returns the `result` field of the JSON envelope,
and it propagates a client error to its caller unchanged, with no retry:
the trace stays a single request in both outcomes. -/
theorem updateDataset_single_put_contract
    (put : HttpRequest → Except HttpError JsonEnvelope)
    (dbId datasetId : Nat) (sql : String) (columns : List JsonValue)
    (owners : List Int) (overrideColumns : Bool) :
    (updateDataset put dbId datasetId sql columns owners overrideColumns).1 =
      [updateDatasetRequest dbId datasetId sql columns owners overrideColumns] ∧
    (updateDatasetRequest dbId datasetId sql columns owners
        overrideColumns).method = "PUT" ∧
    (updateDatasetRequest dbId datasetId sql columns owners
        overrideColumns).endpoint =
      "api/v1/dataset/" ++ toString datasetId ++ "?override_columns="
        ++ boolStr overrideColumns ∧
    (updateDatasetRequest dbId datasetId sql columns owners
        overrideColumns).body.objFields =
      [("sql", JsonValue.str sql),
       ("columns", JsonValue.arr columns),
       ("owners", JsonValue.arr (owners.map JsonValue.num)),
       ("database_id", JsonValue.num dbId)] ∧
    (∀ env,
      put (updateDatasetRequest dbId datasetId sql columns owners
        overrideColumns) = Except.ok env →
      (updateDataset put dbId datasetId sql columns owners
        overrideColumns).2 = Except.ok env.result) ∧
    (∀ err,
      put (updateDatasetRequest dbId datasetId sql columns owners
        overrideColumns) = Except.error err →
      (updateDataset put dbId datasetId sql columns owners
        overrideColumns).2 = Except.error err) := by
  refine ⟨rfl, rfl, rfl, rfl, ?_, ?_⟩
  · intro env henv
    simp [updateDataset, henv, Except.map]
  · intro err herr
    simp [updateDataset, herr, Except.map]

/-- C9 witness: with a client that answers every request successfully with
a null `result`, the helper returns that `result`, and with a client that
always fails with status 500, the helper propagates that error. -/
theorem updateDataset_single_put_contract_witness :
    (updateDataset (fun _ => Except.ok (JsonEnvelope.mk JsonValue.null))
      7 42 "select 1" [] [3] true).2 = Except.ok JsonValue.null ∧
    (updateDataset (fun _ => Except.error (HttpError.mk 500 "boom"))
      7 42 "select 1" [] [3] true).2 =
      Except.error (HttpError.mk 500 "boom") :=
  ⟨(updateDataset_single_put_contract
      (fun _ => Except.ok (JsonEnvelope.mk JsonValue.null))
      7 42 "select 1" [] [3] true).2.2.2.2.1
      (JsonEnvelope.mk JsonValue.null) rfl,
   (updateDataset_single_put_contract
      (fun _ => Except.error (HttpError.mk 500 "boom"))
      7 42 "select 1" [] [3] true).2.2.2.2.2
      (HttpError.mk 500 "boom") rfl⟩
